import Mathlib

/-!
Verification development for the `python_scripts` repository
(`create_ansible_vault_pass_file.py` and `question.py`).

The interactive functions are shallowly embedded as pure Lean functions:
* user input read by `input()` becomes explicit response-string parameters,
  consumed in call order;
* the filesystem facts the script queries (`path.parent.exists()`,
  `path.exists()`) become an explicit `FS` record threaded through;
* `exit(n)` and uncaught exceptions become constructors of a result type;
* `print` output that matters to the claims (the confirmation prompts) is
  recorded in the returned run record.
-/

namespace VaultPass

/-- Python's `str.lower()` restricted to the ASCII range, which is all the
script ever compares against (`'y'`, `'n'`, `''`). -/
def py_lower (s : String) : String := String.mk (s.data.map Char.toLower)

/-- The `match question: ...` block of `question.py` lines 9-17: the lowered
response maps `''` to the default polarity, `'y'` to True, `'n'` to False and
anything else to False. -/
def answer_value (default_value : Bool) (response : String) : Bool :=
  match py_lower response with
  | "" => default_value
  | "y" => true
  | "n" => false
  | _ => false

/-- What one call of `ask_yes_no_question` does: the exact string handed to
`input()` and the boolean returned. -/
structure AskOutcome where
  prompt : String
  result : Bool
deriving DecidableEq, Repr

/-- `question.py` `ask_yes_no_question(promt, default)`, with the response the
user types passed explicitly.  The two `if` statements of the source assign
`default_str`/`default_value` only when `default.lower()` is `'y'` or `'n'`;
for any other default the f-string on line 8 reads the unassigned
`default_str` and the call raises `NameError` before `input()` runs, which the
embedding models as `none`. -/
def ask_yes_no_question (promt : String) (default : String) (response : String) :
    Option AskOutcome :=
  if py_lower default = "y" then
    let default_str : String := "Y/n"
    let default_value : Bool := true
    some { prompt := promt ++ " " ++ default_str ++ ": "
           result := answer_value default_value response }
  else if py_lower default = "n" then
    let default_str : String := "y/N"
    let default_value : Bool := false
    some { prompt := promt ++ " " ++ default_str ++ ": "
           result := answer_value default_value response }
  else
    none

example : py_lower "Y" = "y" := by decide
example : py_lower "" = "" := by decide
example : answer_value false "Y" = true := by decide
example : answer_value true "" = true := by decide
example : answer_value true "maybe" = false := by decide
example : ask_yes_no_question "Go?" "y" "" =
    some { prompt := "Go? Y/n: ", result := true } := by decide
example : ask_yes_no_question "Go?" "yes" "y" = none := by decide

/-- `recomended_length` of `create_ansible_vault_pass_file.py` (the source's
spelling is kept). -/
def recomended_length : Int := 128

/-- Identifies which confirmation question was put to the user, in the order
`input()` was called. -/
inductive Prompt where
  | shortLength (v : Int)
  | useRecommended
  | createParent
  | overwriteFile
deriving DecidableEq, Repr

/-- How a call of `check_length_arg` ends: a returned length, `exit(code)`, or
an uncaught exception (`NameError` out of the helper). -/
inductive LengthResult where
  | returned (n : Int)
  | exited (code : Nat)
  | raised
deriving DecidableEq, Repr

/-- A full run of `check_length_arg`: its result and the confirmation prompts
issued, in order. -/
structure LengthRun where
  result : LengthResult
  prompts : List Prompt
deriving DecidableEq, Repr

/-- First prompt text of `check_length_arg` (lines 82-89). -/
def short_length_promt (value : Int) : String :=
  s!"Your selected secret length is {value} bytes. The recommended length is {recomended_length} bytes. Do you want to continue with length {value}?"

/-- Second prompt text of `check_length_arg` (line 95). -/
def use_default_promt : String :=
  s!"Do you want to use the recommended default length ({recomended_length}) instead?"

/-- `check_length_arg` of `create_ansible_vault_pass_file.py` lines 80-106,
after the `int` coercion (the coercion and its `ArgumentTypeError` live in the
excluded CLI layer).  `r1`/`r2` are the responses the user would type to the
first and second prompt. -/
def check_length_arg (value : Int) (r1 r2 : String) : LengthRun :=
  if value < recomended_length then
    match ask_yes_no_question (short_length_promt value) "y" r1 with
    | none => { result := .raised, prompts := [] }
    | some o1 =>
      if o1.result then
        { result := .returned value, prompts := [.shortLength value] }
      else
        match ask_yes_no_question use_default_promt "y" r2 with
        | none => { result := .raised, prompts := [.shortLength value] }
        | some o2 =>
          if o2.result then
            { result := .returned recomended_length
              prompts := [.shortLength value, .useRecommended] }
          else
            { result := .exited 3
              prompts := [.shortLength value, .useRecommended] }
  else
    { result := .returned value, prompts := [] }

/-- The filesystem facts the script queries about the resolved target path:
whether `path.parent.exists()` and whether `path.exists()`. -/
structure FS where
  parentExists : Bool
  fileExists : Bool
deriving DecidableEq, Repr

/-- String renderings of the target path, used only to build prompt text
(`str(path)` and `str(path.parent)`). -/
structure PyPath where
  render : String
  parentRender : String
deriving DecidableEq, Repr

/-- `path.parent.mkdir(parents=True)` (line 245): no `exist_ok`, so it raises
`FileExistsError` when the parent directory itself already exists, and
otherwise creates the whole chain. -/
def mkdir_parents (fs : FS) : Except Unit FS :=
  if fs.parentExists then Except.error ()
  else Except.ok { fs with parentExists := true }

/-- How a call of `check_path` ends: a returned boolean, `exit(code)`, or an
uncaught exception (`NameError` or `FileExistsError`). -/
inductive PathResult where
  | returned (b : Bool)
  | exited (code : Nat)
  | raised
deriving DecidableEq, Repr

/-- A full run of `check_path`: its result, the filesystem state when it ends,
the prompts issued in order, and how many times `mkdir` was invoked. -/
structure PathRun where
  result : PathResult
  fs : FS
  prompts : List Prompt
  mkdirCalls : Nat
deriving DecidableEq, Repr

/-- Prompt text of the parent-creation question (lines 235-239). -/
def create_parent_promt (path : PyPath) : String :=
  let p := path.parentRender
  s!"The parent directory does not exist: {p}. Create it now?"

/-- Prompt text of the overwrite question (line 256). -/
def overwrite_promt (path : PyPath) : String :=
  let p := path.render
  s!"File already exists: {p}. Overwrite?"

/-- Lines 252-268 of `check_path`: the existing-file handling entered after
the parent-directory block, plus the final `return True`.  `fs` is the
filesystem state at that point, `ps`/`mk` the prompts and `mkdir` calls
already accumulated by the parent block. -/
def overwrite_gate (fs : FS) (overwrite : Bool) (path : PyPath) (r2 : String)
    (ps : List Prompt) (mk : Nat) : PathRun :=
  if fs.parentExists && fs.fileExists then
    if !overwrite then
      match ask_yes_no_question (overwrite_promt path) "n" r2 with
      | none => { result := .raised, fs := fs, prompts := ps, mkdirCalls := mk }
      | some o =>
        if o.result then
          { result := .returned true, fs := fs
            prompts := ps ++ [.overwriteFile], mkdirCalls := mk }
        else
          { result := .exited 5, fs := fs
            prompts := ps ++ [.overwriteFile], mkdirCalls := mk }
    else
      { result := .returned true, fs := fs, prompts := ps, mkdirCalls := mk }
  else
    { result := .returned true, fs := fs, prompts := ps, mkdirCalls := mk }

/-- `check_path` of `create_ansible_vault_pass_file.py` lines 209-268.  `r1`
is the response to the parent-creation prompt, `r2` to the overwrite prompt.
When the parent is missing and `create_parents` is false, an affirmative
answer rebinds `create_parents` to True (line 242); if it stays false the
function prints and calls `exit(4)` (line 249); the overwrite decline path
calls `exit(5)` (line 263). -/
def check_path (fs : FS) (overwrite : Bool) (create_parents : Bool)
    (path : PyPath) (r1 r2 : String) : PathRun :=
  if !fs.parentExists then
    if !create_parents then
      match ask_yes_no_question (create_parent_promt path) "y" r1 with
      | none => { result := .raised, fs := fs, prompts := [], mkdirCalls := 0 }
      | some o =>
        if o.result then
          match mkdir_parents fs with
          | Except.error _ =>
            { result := .raised, fs := fs, prompts := [.createParent], mkdirCalls := 1 }
          | Except.ok fs1 => overwrite_gate fs1 overwrite path r2 [.createParent] 1
        else
          { result := .exited 4, fs := fs, prompts := [.createParent], mkdirCalls := 0 }
    else
      match mkdir_parents fs with
      | Except.error _ =>
        { result := .raised, fs := fs, prompts := [], mkdirCalls := 1 }
      | Except.ok fs1 => overwrite_gate fs1 overwrite path r2 [] 1
  else
    overwrite_gate fs overwrite path r2 [] 0

/-- How a whole run of the script ends: normal completion after writing,
the `else` branch of `do_work` that reports failed path checks, `exit(code)`,
or an uncaught exception. -/
inductive ProgResult where
  | finished
  | pathChecksFailed
  | exited (code : Nat)
  | raised
deriving DecidableEq, Repr

/-- The pipeline `do_work(parse_args())` for an invocation that supplies a
`--length` and a string `--path`: `parse_args` runs `check_length_arg` on the
length (lines 132-141), then `do_work` (lines 271-312) handles
`--description`, runs `check_path`, and if `can_write` holds writes the
secret (`path.write_text`, line 309) — modelled as setting `fileExists` and
counting one write.  Returns the outcome, the final filesystem state, and the
number of file writes performed. -/
def run_program (description : Bool) (lengthArg : Int) (fs : FS)
    (overwrite : Bool) (create_parents : Bool) (path : PyPath)
    (rl1 rl2 rp1 rp2 : String) : ProgResult × FS × Nat :=
  match (check_length_arg lengthArg rl1 rl2).result with
  | .raised => (.raised, fs, 0)
  | .exited c => (.exited c, fs, 0)
  | .returned _ =>
    if description then (.exited 0, fs, 0)
    else
      let run := check_path fs overwrite create_parents path rp1 rp2
      match run.result with
      | .raised => (.raised, run.fs, 0)
      | .exited c => (.exited c, run.fs, 0)
      | .returned can_write =>
        if can_write then (.finished, { run.fs with fileExists := true }, 1)
        else (.pathChecksFailed, run.fs, 0)

example : check_length_arg 8 "n" "y" =
    { result := .returned 128, prompts := [.shortLength 8, .useRecommended] } := by decide
example : check_length_arg 8 "n" "n" =
    { result := .exited 3, prompts := [.shortLength 8, .useRecommended] } := by decide
example : check_length_arg 8 "" "n" =
    { result := .returned 8, prompts := [.shortLength 8] } := by decide
example : check_length_arg 200 "n" "n" =
    { result := .returned 200, prompts := [] } := by decide
example : check_path ⟨true, true⟩ false false ⟨"/t/f", "/t"⟩ "x" "" =
    { result := .exited 5, fs := ⟨true, true⟩, prompts := [.overwriteFile], mkdirCalls := 0 } := by decide
example : check_path ⟨false, false⟩ false false ⟨"/t/f", "/t"⟩ "y" "" =
    { result := .returned true, fs := ⟨true, false⟩, prompts := [.createParent], mkdirCalls := 1 } := by decide
example : check_path ⟨false, false⟩ false false ⟨"/t/f", "/t"⟩ "q" "" =
    { result := .exited 4, fs := ⟨false, false⟩, prompts := [.createParent], mkdirCalls := 0 } := by decide
example : run_program false 128 ⟨false, false⟩ false false ⟨"/t/f", "/t"⟩ "" "" "y" "" =
    (.finished, ⟨true, true⟩, 1) := by decide
example : run_program false 8 ⟨true, true⟩ false false ⟨"/t/f", "/t"⟩ "n" "n" "y" "" =
    (.exited 3, ⟨true, true⟩, 0) := by decide

/-! Helper lemmas about the embedded definitions. -/

theorem ask_default_y (p r : String) :
    ask_yes_no_question p "y" r =
      some { prompt := p ++ " " ++ "Y/n" ++ ": ", result := answer_value true r } := rfl

theorem ask_default_n (p r : String) :
    ask_yes_no_question p "n" r =
      some { prompt := p ++ " " ++ "y/N" ++ ": ", result := answer_value false r } := rfl

theorem answer_value_false_iff (r : String) :
    answer_value false r = true ↔ py_lower r = "y" := by
  unfold answer_value
  split <;> simp_all

theorem answer_value_true_false_iff (r : String) :
    answer_value true r = false ↔ (py_lower r ≠ "" ∧ py_lower r ≠ "y") := by
  unfold answer_value
  split <;> simp_all

theorem overwrite_gate_fs_eq (fs : FS) (ow : Bool) (path : PyPath) (r2 : String)
    (ps : List Prompt) (mk : Nat) : (overwrite_gate fs ow path r2 ps mk).fs = fs := by
  rcases fs with ⟨pe, fe⟩
  cases pe <;> cases fe <;> cases ow <;> cases h : answer_value false r2 <;>
    simp [overwrite_gate, ask_default_n, h]

theorem overwrite_gate_mkdirCalls_eq (fs : FS) (ow : Bool) (path : PyPath)
    (r2 : String) (ps : List Prompt) (mk : Nat) :
    (overwrite_gate fs ow path r2 ps mk).mkdirCalls = mk := by
  rcases fs with ⟨pe, fe⟩
  cases pe <;> cases fe <;> cases ow <;> cases h : answer_value false r2 <;>
    simp [overwrite_gate, ask_default_n, h]

theorem overwrite_gate_result_cases (fs : FS) (ow : Bool) (path : PyPath)
    (r2 : String) (ps : List Prompt) (mk : Nat) :
    (overwrite_gate fs ow path r2 ps mk).result = PathResult.returned true ∨
    (overwrite_gate fs ow path r2 ps mk).result = PathResult.exited 5 := by
  rcases fs with ⟨pe, fe⟩
  cases pe <;> cases fe <;> cases ow <;> cases h : answer_value false r2 <;>
    simp [overwrite_gate, ask_default_n, h]

theorem check_path_parent_true (fs : FS) (ow cp : Bool) (path : PyPath)
    (r1 r2 : String) (h : fs.parentExists = true) :
    check_path fs ow cp path r1 r2 = overwrite_gate fs ow path r2 [] 0 := by
  simp [check_path, h]

theorem check_path_result_cases (fs : FS) (ow cp : Bool) (path : PyPath)
    (r1 r2 : String) :
    (check_path fs ow cp path r1 r2).result = PathResult.returned true ∨
    (check_path fs ow cp path r1 r2).result = PathResult.exited 4 ∨
    (check_path fs ow cp path r1 r2).result = PathResult.exited 5 := by
  rcases fs with ⟨pe, fe⟩
  cases pe
  · cases cp
    · cases h1 : answer_value true r1
      · simp [check_path, ask_default_y, h1]
      · rcases overwrite_gate_result_cases ⟨true, fe⟩ ow path r2 [.createParent] 1 with h | h <;>
          simp [check_path, ask_default_y, h1, mkdir_parents, h]
    · rcases overwrite_gate_result_cases ⟨true, fe⟩ ow path r2 [] 1 with h | h <;>
        simp [check_path, mkdir_parents, h]
  · rcases overwrite_gate_result_cases ⟨true, fe⟩ ow path r2 [] 0 with h | h <;>
      simp [check_path, h]

theorem check_length_result_cases (v : Int) (r1 r2 : String) :
    (check_length_arg v r1 r2).result = LengthResult.returned v ∨
    (check_length_arg v r1 r2).result = LengthResult.returned recomended_length ∨
    (check_length_arg v r1 r2).result = LengthResult.exited 3 := by
  by_cases h : v < recomended_length <;>
    cases h1 : answer_value true r1 <;> cases h2 : answer_value true r2 <;>
    simp [check_length_arg, ask_default_y, h, h1, h2]

/-! Claim theorems. -/

/-- Claim C1: with the parent directory present, the target file present and
`overwrite=false`, `check_path` reports a writable verdict exactly when the
user answers the overwrite prompt (default No) with an explicit `y`; any
other answer — `n`, empty input, or anything else — makes the process exit
with code 5, distinct from the other abort codes 3 and 4 and from success 0,
with the filesystem state untouched. -/
theorem overwrite_needs_explicit_confirmation
    (fs : FS) (cp : Bool) (path : PyPath) (r1 r2 : String)
    (hp : fs.parentExists = true) (hf : fs.fileExists = true) :
    ((check_path fs false cp path r1 r2).result = PathResult.returned true ↔
      py_lower r2 = "y") ∧
    (py_lower r2 ≠ "y" →
      (check_path fs false cp path r1 r2).result = PathResult.exited 5 ∧
      (check_path fs false cp path r1 r2).fs = fs) ∧
    (5 : Nat) ≠ 3 ∧ (5 : Nat) ≠ 4 ∧ (5 : Nat) ≠ 0 := by
  rcases fs with ⟨pe, fe⟩
  simp only at hp hf
  subst hp hf
  have hav := answer_value_false_iff r2
  by_cases hy : py_lower r2 = "y"
  · have h2 : answer_value false r2 = true := hav.mpr hy
    simp [check_path, overwrite_gate, ask_default_n, h2, hy]
  · have h2 : answer_value false r2 = false := by
      cases h : answer_value false r2
      · rfl
      · exact absurd (hav.mp h) hy
    simp [check_path, overwrite_gate, ask_default_n, h2, hy]

/-- Closed instance of the C1 theorem: parent and file exist, the user sends
empty input to the overwrite prompt, and `check_path` exits with code 5
leaving the filesystem unchanged. -/
theorem overwrite_needs_explicit_confirmation_witness :
    (check_path ⟨true, true⟩ false false ⟨"/tmp/f", "/tmp"⟩ "x" "").result =
      PathResult.exited 5 ∧
    (check_path ⟨true, true⟩ false false ⟨"/tmp/f", "/tmp"⟩ "x" "").fs =
      ⟨true, true⟩ := by
  have h := overwrite_needs_explicit_confirmation ⟨true, true⟩ false
    ⟨"/tmp/f", "/tmp"⟩ "x" "" rfl rfl
  exact h.2.1 (by decide)

/-- Claim C2: with `create_parents=false` and the parent-creation prompt
(default Yes) declined — an answer that is neither empty nor `y` — the
`mkdir` call is never reached, so no directory is created; and whenever the
parent was in fact missing, `check_path` exits with code 4, distinct from
abort codes 3 and 5 and from success 0, with the filesystem state
untouched. -/
theorem parent_creation_needs_authorization
    (fs : FS) (ow cp : Bool) (path : PyPath) (r1 r2 : String)
    (hcp : cp = false) (hdecl : answer_value true r1 = false) :
    (check_path fs ow cp path r1 r2).mkdirCalls = 0 ∧
    (fs.parentExists = false →
      (check_path fs ow cp path r1 r2).result = PathResult.exited 4 ∧
      (check_path fs ow cp path r1 r2).fs = fs) ∧
    (answer_value true r1 = false ↔ (py_lower r1 ≠ "" ∧ py_lower r1 ≠ "y")) ∧
    (4 : Nat) ≠ 3 ∧ (4 : Nat) ≠ 5 ∧ (4 : Nat) ≠ 0 := by
  subst hcp
  rcases fs with ⟨pe, fe⟩
  refine ⟨?_, ?_, answer_value_true_false_iff r1, by decide, by decide, by decide⟩
  · cases pe
    · simp [check_path, ask_default_y, hdecl]
    · have := overwrite_gate_mkdirCalls_eq ⟨true, fe⟩ ow path r2 [] 0
      simp [check_path, this]
  · intro hpe
    simp only at hpe
    subst hpe
    simp [check_path, ask_default_y, hdecl]

/-- Closed instance of the C2 theorem: parent missing, `create_parents`
unset, the user answers `n`; nothing is created and the process exits with
code 4. -/
theorem parent_creation_needs_authorization_witness :
    (check_path ⟨false, false⟩ false false ⟨"/tmp/n/f", "/tmp/n"⟩ "n" "").mkdirCalls = 0 ∧
    (check_path ⟨false, false⟩ false false ⟨"/tmp/n/f", "/tmp/n"⟩ "n" "").result =
      PathResult.exited 4 ∧
    (check_path ⟨false, false⟩ false false ⟨"/tmp/n/f", "/tmp/n"⟩ "n" "").fs =
      ⟨false, false⟩ := by
  have h := parent_creation_needs_authorization ⟨false, false⟩ false false
    ⟨"/tmp/n/f", "/tmp/n"⟩ "n" "" rfl (by decide)
  exact ⟨h.1, (h.2.1 rfl).1, (h.2.1 rfl).2⟩

/-- Claim C3: for a requested length below the recommended one,
`check_length_arg` asks one or two distinct questions, never repeating
either; any returned value is the requested or the recommended length and
nothing else; confirming the first prompt returns the request, declining it
and confirming the second returns the recommended default, and declining
both makes the whole program exit with code 3 — distinct from abort codes 4
and 5 and from success 0 — with no file written and the filesystem
untouched. -/
theorem short_length_protocol (v : Int) (r1 r2 : String)
    (h : v < recomended_length) :
    ((check_length_arg v r1 r2).prompts = [Prompt.shortLength v] ∨
      (check_length_arg v r1 r2).prompts =
        [Prompt.shortLength v, Prompt.useRecommended]) ∧
    (check_length_arg v r1 r2).prompts.Nodup ∧
    (∀ n, (check_length_arg v r1 r2).result = LengthResult.returned n →
      n = v ∨ n = recomended_length) ∧
    (answer_value true r1 = true →
      (check_length_arg v r1 r2).result = LengthResult.returned v) ∧
    (answer_value true r1 = false → answer_value true r2 = true →
      (check_length_arg v r1 r2).result = LengthResult.returned recomended_length) ∧
    (answer_value true r1 = false → answer_value true r2 = false →
      (check_length_arg v r1 r2).result = LengthResult.exited 3 ∧
      ∀ d fs ow cp path p1 p2,
        run_program d v fs ow cp path r1 r2 p1 p2 = (ProgResult.exited 3, fs, 0)) ∧
    (3 : Nat) ≠ 4 ∧ (3 : Nat) ≠ 5 ∧ (3 : Nat) ≠ 0 := by
  cases h1 : answer_value true r1 <;> cases h2 : answer_value true r2 <;>
    simp [check_length_arg, run_program, ask_default_y, h, h1, h2]

/-- Closed instance of the C3 theorem: requesting 8 bytes and declining both
prompts exits the whole program with code 3, no write performed. -/
theorem short_length_protocol_witness :
    (check_length_arg 8 "n" "n").result = LengthResult.exited 3 ∧
    run_program false 8 ⟨true, true⟩ false false ⟨"/t/f", "/t"⟩ "n" "n" "y" "" =
      (ProgResult.exited 3, ⟨true, true⟩, 0) := by
  have h := short_length_protocol 8 "n" "n" (by decide)
  have h3 := h.2.2.2.2.2.1 (by decide) (by decide)
  exact ⟨h3.1, h3.2 false ⟨true, true⟩ false false ⟨"/t/f", "/t"⟩ "y" ""⟩

/-- Claim C4: for a requested length at or above the recommended one,
`check_length_arg` returns the request unchanged and asks nothing. -/
theorem long_length_no_prompts (v : Int) (r1 r2 : String)
    (h : recomended_length ≤ v) :
    check_length_arg v r1 r2 =
      { result := LengthResult.returned v, prompts := [] } := by
  simp [check_length_arg, not_lt.mpr h]

/-- Closed instance of the C4 theorem at the recommended length itself. -/
theorem long_length_no_prompts_witness :
    check_length_arg 128 "n" "n" =
      { result := LengthResult.returned 128, prompts := [] } :=
  long_length_no_prompts 128 "n" "n" (by decide)

/-- Claim C5: whenever `check_path` returns the writable verdict `True`, the
parent directory exists in the final filesystem state, and if the target
file existed then either `overwrite` was passed as true or the user answered
the overwrite prompt with an explicit `y`. -/
theorem writable_verdict_invariant (fs : FS) (ow cp : Bool) (path : PyPath)
    (r1 r2 : String)
    (h : (check_path fs ow cp path r1 r2).result = PathResult.returned true) :
    (check_path fs ow cp path r1 r2).fs.parentExists = true ∧
    (fs.fileExists = true → ow = true ∨ py_lower r2 = "y") := by
  rcases fs with ⟨pe, fe⟩
  cases pe <;> cases fe <;> cases ow <;> cases cp <;>
    cases h1 : answer_value true r1 <;> cases h2 : answer_value false r2 <;>
    simp_all [check_path, overwrite_gate, ask_default_y, ask_default_n,
      mkdir_parents, answer_value_false_iff]

/-- Closed instance of the C5 theorem: parent present, file present,
`overwrite=false`, user answers `Y`; the verdict is writable and the
invariant conclusions hold. -/
theorem writable_verdict_invariant_witness :
    (check_path ⟨true, true⟩ false false ⟨"/tmp/f", "/tmp"⟩ "" "Y").fs.parentExists = true ∧
    ((⟨true, true⟩ : FS).fileExists = true → false = true ∨ py_lower "Y" = "y") := by
  have h := writable_verdict_invariant ⟨true, true⟩ false false
    ⟨"/tmp/f", "/tmp"⟩ "" "Y" (by decide)
  exact h

/-- Claim C6: calling `check_path` twice in sequence with
`create_parents=true` on a state whose parent directory already exists never
reaches `mkdir` and never raises, in either call: directory creation is
idempotent across the two invocations. -/
theorem path_guard_idempotent (fs : FS) (ow ow2 : Bool) (path : PyPath)
    (r1 r2 r3 r4 : String) (h : fs.parentExists = true) :
    (check_path fs ow true path r1 r2).mkdirCalls = 0 ∧
    (check_path fs ow true path r1 r2).result ≠ PathResult.raised ∧
    (check_path (check_path fs ow true path r1 r2).fs ow2 true path r3 r4).mkdirCalls = 0 ∧
    (check_path (check_path fs ow true path r1 r2).fs ow2 true path r3 r4).result ≠
      PathResult.raised := by
  have e1 := check_path_parent_true fs ow true path r1 r2 h
  have hfs1 : (check_path fs ow true path r1 r2).fs = fs := by
    rw [e1]; exact overwrite_gate_fs_eq fs ow path r2 [] 0
  have e2 := check_path_parent_true (check_path fs ow true path r1 r2).fs ow2 true
    path r3 r4 (by rw [hfs1]; exact h)
  refine ⟨?_, ?_, ?_, ?_⟩
  · rw [e1]; exact overwrite_gate_mkdirCalls_eq fs ow path r2 [] 0
  · rw [e1]
    rcases overwrite_gate_result_cases fs ow path r2 [] 0 with hr | hr <;> simp [hr]
  · rw [e2, hfs1]; exact overwrite_gate_mkdirCalls_eq fs ow2 path r4 [] 0
  · rw [e2, hfs1]
    rcases overwrite_gate_result_cases fs ow2 path r4 [] 0 with hr | hr <;> simp [hr]

/-- Closed instance of the C6 theorem: two consecutive calls with
`create_parents=true` on an existing parent, no `mkdir` and no exception. -/
theorem path_guard_idempotent_witness :
    (check_path ⟨true, false⟩ false true ⟨"/tmp/f", "/tmp"⟩ "" "").mkdirCalls = 0 ∧
    (check_path ⟨true, false⟩ false true ⟨"/tmp/f", "/tmp"⟩ "" "").result ≠
      PathResult.raised ∧
    (check_path (check_path ⟨true, false⟩ false true ⟨"/tmp/f", "/tmp"⟩ "" "").fs
      false true ⟨"/tmp/f", "/tmp"⟩ "" "").mkdirCalls = 0 ∧
    (check_path (check_path ⟨true, false⟩ false true ⟨"/tmp/f", "/tmp"⟩ "" "").fs
      false true ⟨"/tmp/f", "/tmp"⟩ "" "").result ≠ PathResult.raised :=
  path_guard_idempotent ⟨true, false⟩ false false ⟨"/tmp/f", "/tmp"⟩ "" "" "" "" rfl

/-- Claim C7: `ask_yes_no_question` hands `input()` the prompt followed by the
bracketed hint with the default capitalized (`Y/n` for default yes, `y/N` for
default no), and maps the response case-insensitively: `y` yields True, `n`
yields False, empty input yields the caller's default polarity, and any other
input yields False — one question, no re-prompt, no exception. -/
theorem ask_yes_no_question_contract (p d r : String) :
    (py_lower d = "y" →
      ask_yes_no_question p d r =
        some { prompt := p ++ " " ++ "Y/n" ++ ": ", result := answer_value true r }) ∧
    (py_lower d = "n" →
      ask_yes_no_question p d r =
        some { prompt := p ++ " " ++ "y/N" ++ ": ", result := answer_value false r }) ∧
    (∀ dv : Bool, py_lower r = "y" → answer_value dv r = true) ∧
    (∀ dv : Bool, py_lower r = "n" → answer_value dv r = false) ∧
    (∀ dv : Bool, r = "" → answer_value dv r = dv) ∧
    (∀ dv : Bool, py_lower r ≠ "" → py_lower r ≠ "y" → py_lower r ≠ "n" →
      answer_value dv r = false) := by
  refine ⟨?_, ?_, ?_, ?_, ?_, ?_⟩
  · intro h; simp [ask_yes_no_question, h]
  · intro h; simp [ask_yes_no_question, h]
  · intro dv h; simp [answer_value, h]
  · intro dv h; simp [answer_value, h]
  · intro dv h; subst h; cases dv <;> decide
  · intro dv h1 h2 h3
    unfold answer_value
    split <;> simp_all

/-- Closed instances of the C7 theorem: hint and default handling at the four
kinds of response. -/
theorem ask_yes_no_question_contract_witness :
    ask_yes_no_question "Overwrite?" "n" "q" =
      some { prompt := "Overwrite?" ++ " " ++ "y/N" ++ ": ",
             result := answer_value false "q" } ∧
    answer_value false "Y" = true ∧
    answer_value true "N" = false ∧
    answer_value true "" = true ∧
    answer_value false "sure" = false := by
  refine ⟨(ask_yes_no_question_contract "Overwrite?" "n" "q").2.1 (by decide),
    (ask_yes_no_question_contract "p" "n" "Y").2.2.1 false (by decide),
    (ask_yes_no_question_contract "p" "y" "N").2.2.2.1 true (by decide),
    (ask_yes_no_question_contract "p" "y" "").2.2.2.2.1 true rfl,
    (ask_yes_no_question_contract "p" "n" "sure").2.2.2.2.2 false (by decide)
      (by decide) (by decide)⟩

/-- Claim C9: `check_path` never returns `False`: every run either returns
`True` or exits with code 4 or 5, and consequently a whole program run
either finishes normally or exits — the `else` branch of `do_work` that
would handle a false `can_write`, and every exception path, are
unreachable. -/
theorem check_path_never_false :
    (∀ fs ow cp path r1 r2,
      (check_path fs ow cp path r1 r2).result = PathResult.returned true ∨
      (check_path fs ow cp path r1 r2).result = PathResult.exited 4 ∨
      (check_path fs ow cp path r1 r2).result = PathResult.exited 5) ∧
    (∀ d L fs ow cp path rl1 rl2 rp1 rp2,
      (run_program d L fs ow cp path rl1 rl2 rp1 rp2).1 = ProgResult.finished ∨
      ∃ c, (run_program d L fs ow cp path rl1 rl2 rp1 rp2).1 = ProgResult.exited c) := by
  refine ⟨fun fs ow cp path r1 r2 => check_path_result_cases fs ow cp path r1 r2, ?_⟩
  intro d L fs ow cp path rl1 rl2 rp1 rp2
  rcases check_length_result_cases L rl1 rl2 with hl | hl | hl <;>
    rcases check_path_result_cases fs ow cp path rp1 rp2 with hp | hp | hp <;>
    cases d <;> simp [run_program, hl, hp]

/-- Claim C10: for a `default` argument that lowercases to neither `y` nor
`n`, no branch of `ask_yes_no_question` assigns `default_str`, and the call
raises `NameError` while building the prompt, before any input is read —
modelled as `none`, uniformly in the response. -/
theorem ask_invalid_default_raises (p d r : String)
    (h1 : py_lower d ≠ "y") (h2 : py_lower d ≠ "n") :
    ask_yes_no_question p d r = none := by
  simp [ask_yes_no_question, h1, h2]

/-- Closed instance of the C10 theorem at `default="yes"`. -/
theorem ask_invalid_default_raises_witness :
    ask_yes_no_question "Continue?" "yes" "y" = none :=
  ask_invalid_default_raises "Continue?" "yes" "y" (by decide) (by decide)

end VaultPass
